import Mathlib

/-!
Shallow embedding of `expr.py`, a calculator expression-tree evaluator:
expression nodes (integer constants, binary and unary operators, variables,
assignment), a global variable environment `ENV`, evaluation, algebraic text
rendering and constructor-style debug rendering.

Python's mutable global dict and exceptions are modelled by explicit state
passing: evaluation returns `(Except Err Int) × Env`, so an error result
still carries the environment as it stands when the exception propagates
(Python exceptions do not roll back prior side effects).
-/

namespace Calculator

/-- The variable environment `ENV`: a mapping from variable names to integer
values (the source stores `IntConst` objects; only the integer is observable).
Modelled as an ordered association list with dict lookup/overwrite semantics. -/
abbrev Env : Type := List (String × Int)

/-- The function `env_clear`: resets calculator memory to an empty mapping. -/
def env_clear : Env := []

/-- Dict membership test and lookup: `self.name in ENV` / `ENV[self.name]`. -/
def envLookup (name : String) : Env → Option Int
  | [] => none
  | (k, v) :: rest => if k = name then some v else envLookup name rest

/-- Dict insert-or-overwrite: `ENV[self.name] = val` in `Var.assign`. -/
def envBind (name : String) (v : Int) : Env → Env
  | [] => [(name, v)]
  | (k, w) :: rest =>
      if k = name then (k, v) :: rest else (k, w) :: envBind name v rest

/-- The exceptions the source can raise:
* `undefinedVariable` — the `UndefinedVariable` class declared in the source
  (never actually raised: see `attributeError`);
* `attributeError` — Python `AttributeError`, raised in `Var.eval`'s error
  path because the f-string reads the nonexistent attribute `self.Name`, and
  in `IntConst.__eq__` when `other` has no `value` attribute;
* `zeroDivisionError` — Python `ZeroDivisionError` from `val1 // val2` with
  zero divisor (the spec's `DivisionByZeroError`);
* `notImplementedError` — `NotImplementedError` from `BinOp.__init__` and
  `UnOp.__init__` (the spec's `InvalidConstructionError`);
* `assertionError` — `AssertionError` from `assert isinstance(left, Var)` in
  `Assign.__init__` (the spec's `TypeMismatchError`). -/
inductive Err : Type
  | undefinedVariable
  | attributeError
  | zeroDivisionError
  | notImplementedError
  | assertionError
  deriving DecidableEq

/-- The concrete subclasses of `BinOp`. -/
inductive BinKind : Type
  | plus
  | minus
  | times
  | div
  deriving DecidableEq

/-- The `op_sym` field set by each concrete `__init__` via `_binop_init`. -/
def BinKind.opSym : BinKind → String
  | .plus => "+"
  | .minus => "-"
  | .times => "*"
  | .div => "/"

/-- The `op_name` field set by each concrete `__init__` via `_binop_init`. -/
def BinKind.opName : BinKind → String
  | .plus => "Plus"
  | .minus => "Minus"
  | .times => "Times"
  | .div => "Div"

/-- The `_apply` method of each concrete `BinOp` subclass.  `Div._apply` is
Python `val1 // val2`: floor division (`Int.fdiv`), raising
`ZeroDivisionError` on a zero divisor. -/
def BinKind.apply : BinKind → Int → Int → Except Err Int
  | .plus, v1, v2 => .ok (v1 + v2)
  | .minus, v1, v2 => .ok (v1 - v2)
  | .times, v1, v2 => .ok (v1 * v2)
  | .div, v1, v2 =>
      if v2 = 0 then .error .zeroDivisionError else .ok (Int.fdiv v1 v2)

/-- The concrete subclasses of `UnOp`. -/
inductive UnKind : Type
  | neg
  | abs
  deriving DecidableEq

/-- The `op_sym` field set by each concrete `__init__` via `_unop_init`. -/
def UnKind.opSym : UnKind → String
  | .neg => "~"
  | .abs => "@"

/-- The `op_name` field set by each concrete `__init__` via `_unop_init`. -/
def UnKind.opName : UnKind → String
  | .neg => "Neg"
  | .abs => "Abs"

/-- The `_apply` method of each concrete `UnOp` subclass: `Neg._apply` is
`-val`, `Abs._apply` is `abs(val)`. -/
def UnKind.apply : UnKind → Int → Int
  | .neg, v => -v
  | .abs, v => |v|

/-- The expression-node hierarchy of `expr.py`.  `assign` stores the target
`Var`'s name (its only field); the construction-time `isinstance` check of
`Assign.__init__` is modelled by `Assign_init` below. -/
inductive Expr : Type
  | intConst (value : Int)
  | binOp (kind : BinKind) (exp1 exp2 : Expr)
  | unOp (kind : UnKind) (exp : Expr)
  | var (name : String)
  | assign (name : String) (right : Expr)
  deriving DecidableEq

/-- `eval`, per node class:
* `IntConst.eval` returns itself;
* `BinOp.eval` evaluates `exp1`, then `exp2`, then applies `_apply`;
* `UnOp.eval` evaluates `exp`, then applies `_apply`;
* `Var.eval` returns `ENV[self.name]` when bound; the unbound path executes
  `raise UndefinedVariable(f"{self.Name} ...")`, whose f-string reads the
  nonexistent attribute `self.Name` and therefore raises `AttributeError`
  before any `UndefinedVariable` is constructed;
* `Assign.eval` evaluates the right side, then binds the result to the
  target's name via `Var.assign`, and returns it.
The environment component is threaded through and returned also on the error
path, matching Python exception propagation over a mutable global. -/
def Expr.eval : Expr → Env → (Except Err Int) × Env
  | .intConst v, env => (.ok v, env)
  | .binOp k e1 e2, env =>
      match e1.eval env with
      | (.error err, env1) => (.error err, env1)
      | (.ok v1, env1) =>
          match e2.eval env1 with
          | (.error err, env2) => (.error err, env2)
          | (.ok v2, env2) => (k.apply v1 v2, env2)
  | .unOp k e, env =>
      match e.eval env with
      | (.error err, env1) => (.error err, env1)
      | (.ok v, env1) => (.ok (k.apply v), env1)
  | .var name, env =>
      match envLookup name env with
      | some v => (.ok v, env)
      | none => (.error .attributeError, env)
  | .assign name right, env =>
      match right.eval env with
      | (.error err, env1) => (.error err, env1)
      | (.ok v, env1) => (.ok v, envBind name v env1)

/-- `__str__` (`toText`), per node class: constants as their decimal value,
`BinOp` as `(<left> <op_sym> <right>)`, `UnOp` as `<op_sym> <operand>`,
variables as their name, assignment as `<name> = <right>`. -/
def Expr.toText : Expr → String
  | .intConst v => toString v
  | .binOp k e1 e2 =>
      "(" ++ e1.toText ++ " " ++ k.opSym ++ " " ++ e2.toText ++ ")"
  | .unOp k e => k.opSym ++ " " ++ e.toText
  | .var name => name
  | .assign name right => name ++ " = " ++ right.toText

/-- `__repr__` (`toDebugText`), per node class: constructor-style rendering
using each operator's `op_name`. -/
def Expr.toDebugText : Expr → String
  | .intConst v => "IntConst(" ++ toString v ++ ")"
  | .binOp k e1 e2 =>
      k.opName ++ "(" ++ e1.toDebugText ++ ", " ++ e2.toDebugText ++ ")"
  | .unOp k e => k.opName ++ "(" ++ e.toDebugText ++ ")"
  | .var name => "Var(" ++ name ++ ")"
  | .assign name right => "Assign(Var(" ++ name ++ "), " ++ right.toDebugText ++ ")"

/-- `BinOp.__init__`: instantiating the abstract base class directly raises
`NotImplementedError` for every pair of operands; no node is produced. -/
def BinOp_init (exp1 exp2 : Expr) : Except Err Expr :=
  .error .notImplementedError

/-- `UnOp.__init__`: instantiating the abstract base class directly raises
`NotImplementedError` for every operand; no node is produced. -/
def UnOp_init (exp : Expr) : Except Err Expr :=
  .error .notImplementedError

/-- `Assign.__init__`: `assert isinstance(left, Var)` — a non-`Var` left side
raises `AssertionError` at construction time, before any evaluation; a `Var`
left side constructs the assignment node. -/
def Assign_init (left right : Expr) : Except Err Expr :=
  match left with
  | .var name => .ok (.assign name right)
  | _ => .error .assertionError

/-- `==` on expressions.  Python dispatches on the runtime class of the left
operand: an `IntConst` uses `IntConst.__eq__`, which reads `other.value` —
defined only when the right operand is itself an `IntConst` node, and raising
`AttributeError` otherwise.  Every other node class inherits `Expr.__eq__`,
which evaluates both sides (left first, over the shared environment) and
compares the resulting `IntConst` values. -/
def exprEq (e1 e2 : Expr) (env : Env) : (Except Err Bool) × Env :=
  match e1 with
  | .intConst v =>
      match e2 with
      | .intConst w => (.ok (decide (v = w)), env)
      | _ => (.error .attributeError, env)
  | _ =>
      match e1.eval env with
      | (.error err, env1) => (.error err, env1)
      | (.ok v1, env1) =>
          match e2.eval env1 with
          | (.error err, env2) => (.error err, env2)
          | (.ok v2, env2) => (.ok (decide (v1 = v2)), env2)

/-- Binding a name and then looking it up yields the bound value, for every
prior state of the environment. -/
theorem envLookup_envBind_self (name : String) (v : Int) :
    ∀ env : Env, envLookup name (envBind name v env) = some v := by
  intro env
  induction env with
  | nil => simp [envBind, envLookup]
  | cons kv rest ih =>
      obtain ⟨k, w⟩ := kv
      by_cases hk : k = name
      · simp [envBind, envLookup, hk]
      · simp [envBind, envLookup, hk, ih]

/-- Claim C1 (evidence of the code bug): evaluating a Variable with no
binding — any name, in a fresh or cleared environment — raises
`AttributeError`, not `UndefinedVariableError`: the error path's f-string
reads the nonexistent attribute `self.Name` before the `UndefinedVariable`
exception can be constructed. -/
theorem var_unbound_attribute_error :
    ∀ name : String,
      (Expr.var name).eval env_clear = (.error .attributeError, env_clear) :=
  fun _ => rfl

/-- Claim C2: on integer constants, Plus evaluates to a + b, Minus to a - b,
Times to a * b, Div to floor division (when the divisor is nonzero), Negate
to -a, and AbsoluteValue to |a|, over arbitrary-precision integers. -/
theorem binop_unop_arith :
    ∀ a b : Int,
      (Expr.binOp .plus (.intConst a) (.intConst b)).eval [] = (.ok (a + b), []) ∧
      (Expr.binOp .minus (.intConst a) (.intConst b)).eval [] = (.ok (a - b), []) ∧
      (Expr.binOp .times (.intConst a) (.intConst b)).eval [] = (.ok (a * b), []) ∧
      (b ≠ 0 →
        (Expr.binOp .div (.intConst a) (.intConst b)).eval [] = (.ok (Int.fdiv a b), [])) ∧
      (Expr.unOp .neg (.intConst a)).eval [] = (.ok (-a), []) ∧
      (Expr.unOp .abs (.intConst a)).eval [] = (.ok (|a|), []) := by
  intro a b
  refine ⟨rfl, rfl, rfl, fun hb => ?_, rfl, rfl⟩
  simp [Expr.eval, BinKind.apply, hb]

/-- Claim C2 witness: the division case at a = -9, b = 7, where floor
division yields -2 (truncation toward negative infinity). -/
theorem binop_unop_arith_witness :
    (7 : Int) ≠ 0 ∧
      (Expr.binOp .div (.intConst (-9)) (.intConst 7)).eval [] = (.ok (-2), []) := by
  have h := (binop_unop_arith (-9) 7).2.2.2.1 (by decide)
  have hd : Int.fdiv (-9) 7 = -2 := by decide
  exact ⟨by decide, hd ▸ h⟩

/-- Claim C3 counterexample: the claim quantifies over every dividend
expression, but when the dividend itself fails to evaluate its error
propagates first.  Here `e = IntConst 0` evaluates to 0, yet
`Div(Var "u", e)` in an empty environment raises the unbound-variable
`AttributeError`, not `ZeroDivisionError`. -/
theorem div_zero_error_counterexample :
    (Expr.intConst 0).eval [] = (.ok 0, []) ∧
    (Expr.binOp .div (.var "u") (.intConst 0)).eval [] = (.error .attributeError, []) ∧
    Err.attributeError ≠ Err.zeroDivisionError :=
  ⟨rfl, rfl, by decide⟩

/-- Claim C3 (amended): whenever the dividend evaluates successfully and the
divisor then evaluates to 0, Div raises `ZeroDivisionError` (the spec's
`DivisionByZeroError`); in particular `Div(IntConst 7, IntConst 0)` does. -/
theorem div_by_zero_raises :
    (∀ (x e : Expr) (env : Env) (v1 : Int) (env1 env2 : Env),
        x.eval env = (.ok v1, env1) → e.eval env1 = (.ok 0, env2) →
        (Expr.binOp .div x e).eval env = (.error .zeroDivisionError, env2)) ∧
    (Expr.binOp .div (.intConst 7) (.intConst 0)).eval [] =
      (.error .zeroDivisionError, []) := by
  refine ⟨?_, rfl⟩
  intro x e env v1 env1 env2 h1 h2
  simp [Expr.eval, h1, h2, BinKind.apply]

/-- Claim C3 witness: a divisor that evaluates to 0 through a Negate node. -/
theorem div_by_zero_raises_witness :
    (Expr.binOp .div (.intConst 5) (.unOp .neg (.intConst 0))).eval [] =
      (.error .zeroDivisionError, []) :=
  div_by_zero_raises.1 (.intConst 5) (.unOp .neg (.intConst 0)) [] 5 [] [] rfl rfl

/-- Claim C4: constructing an Assignment whose left-hand side is any
non-Variable node fails at construction time (the `assert isinstance` in
`Assign.__init__`, before any evaluation); the spec names this failure
`TypeMismatchError`.  In particular an IntegerConstant left side fails. -/
theorem assign_nonvar_fails :
    (∀ left right : Expr, (∀ n, left ≠ Expr.var n) →
        Assign_init left right = .error .assertionError) ∧
    (∀ right : Expr, Assign_init (.intConst 3) right = .error .assertionError) := by
  constructor
  · intro left right hne
    cases left with
    | intConst v => rfl
    | binOp k a b => rfl
    | unOp k a => rfl
    | var n => exact absurd rfl (hne n)
    | assign n r => rfl
  · intro right
    rfl

/-- Claim C4 witness: an IntegerConstant left-hand side at concrete input. -/
theorem assign_nonvar_fails_witness :
    Assign_init (.intConst 3) (.intConst 1) = .error .assertionError :=
  assign_nonvar_fails.1 (.intConst 3) (.intConst 1) (fun _ h => Expr.noConfusion h)

/-- Claim C5: directly instantiating the abstract `BinOp` (resp. `UnOp`)
base class raises `NotImplementedError` (the spec's
`InvalidConstructionError`) for every pair (resp. single) of operands; no
node is ever produced. -/
theorem abstract_init_fails :
    ∀ e1 e2 e : Expr,
      BinOp_init e1 e2 = .error .notImplementedError ∧
      UnOp_init e = .error .notImplementedError :=
  fun _ _ _ => ⟨rfl, rfl⟩

/-- Claim C6: when the right-hand side evaluates successfully to v,
`Assignment(Variable x, e).evaluate()` binds x to v in the environment and
returns v, and `Variable(x).evaluate()` afterwards yields v; in particular
after assigning 10 to x, `Variable("x").evaluate()` yields 10. -/
theorem assign_binds_and_returns :
    (∀ (x : String) (e : Expr) (env : Env) (v : Int) (env1 : Env),
        e.eval env = (.ok v, env1) →
        (Expr.assign x e).eval env = (.ok v, envBind x v env1) ∧
        (Expr.var x).eval (envBind x v env1) = (.ok v, envBind x v env1)) ∧
    (Expr.var "x").eval ((Expr.assign "x" (Expr.intConst 10)).eval []).2 =
      (.ok 10, [("x", 10)]) := by
  refine ⟨?_, rfl⟩
  intro x e env v env1 h
  constructor
  · simp [Expr.eval, h]
  · simp [Expr.eval, envLookup_envBind_self]

/-- Claim C6 witness: assigning 42 to z at concrete input. -/
theorem assign_binds_and_returns_witness :
    (Expr.assign "z" (Expr.intConst 42)).eval [] = (.ok 42, envBind "z" 42 []) ∧
    (Expr.var "z").eval (envBind "z" 42 []) = (.ok 42, envBind "z" 42 []) :=
  assign_binds_and_returns.1 "z" (.intConst 42) [] 42 [] rfl

/-- Claim C7 counterexample: both sides evaluate successfully to 4, yet
comparing `IntConst(4)` with `Plus(IntConst(2), IntConst(2))` raises
`AttributeError` — `IntConst.__eq__` reads `other.value`, which a `Plus`
node does not have — instead of returning true as the claim states. -/
theorem eq_result_based_counterexample :
    (Expr.intConst 4).eval [] = (.ok 4, []) ∧
    (Expr.binOp .plus (.intConst 2) (.intConst 2)).eval [] = (.ok 4, []) ∧
    exprEq (.intConst 4) (.binOp .plus (.intConst 2) (.intConst 2)) [] =
      (.error .attributeError, []) :=
  ⟨rfl, rfl, rfl⟩

/-- Claim C7 (amended): equality is result-based whenever the left operand
is not an IntegerConstant node — both sides are evaluated and the comparison
is true exactly when the values are equal; two IntegerConstants compare by
value without evaluation; but an IntegerConstant on the left compared with a
non-IntegerConstant raises `AttributeError`.  In particular
`Plus(IntConst 2, IntConst 2) == IntConst 4` is true, while the claim's
original orientation `IntConst 4 == Plus(...)` raises (see the
counterexample). -/
theorem eq_result_based_amended :
    (∀ (e1 e2 : Expr) (env env1 env2 : Env) (v1 v2 : Int),
        (∀ v, e1 ≠ Expr.intConst v) →
        e1.eval env = (.ok v1, env1) → e2.eval env1 = (.ok v2, env2) →
        exprEq e1 e2 env = (.ok (decide (v1 = v2)), env2)) ∧
    (∀ (v w : Int) (env : Env),
        exprEq (.intConst v) (.intConst w) env = (.ok (decide (v = w)), env)) ∧
    exprEq (.binOp .plus (.intConst 2) (.intConst 2)) (.intConst 4) [] =
      (.ok true, []) := by
  refine ⟨?_, fun v w env => rfl, rfl⟩
  intro e1 e2 env env1 env2 v1 v2 hne h1 h2
  cases e1 with
  | intConst v => exact absurd rfl (hne v)
  | binOp k a b => simp [exprEq, h1, h2]
  | unOp k a => simp [exprEq, h1, h2]
  | var n => simp [exprEq, h1, h2]
  | assign n r => simp [exprEq, h1, h2]

/-- Claim C7 witness: a Negate node on the left compares result-equal to a
constant with the same value. -/
theorem eq_result_based_amended_witness :
    exprEq (.unOp .neg (.intConst (-4))) (.intConst 4) [] = (.ok true, []) := by
  have h := eq_result_based_amended.1 (.unOp .neg (.intConst (-4))) (.intConst 4)
    [] [] [] 4 4 (fun _ hv => Expr.noConfusion hv) (by rfl) rfl
  simpa using h

/-- Claim C8: text rendering follows the stated grammar for every node —
binary operations as `(<left> <symbol> <right>)`, unary operations as
`<symbol> <operand>` with no parentheses, constants as their decimal value,
variables as their name, assignments as `<name> = <right-text>` — and debug
text renders constructor-style, with the two concrete examples. -/
theorem text_rendering :
    (∀ (k : BinKind) (e1 e2 : Expr),
        (Expr.binOp k e1 e2).toText =
          "(" ++ e1.toText ++ " " ++ k.opSym ++ " " ++ e2.toText ++ ")") ∧
    (∀ (k : UnKind) (e : Expr),
        (Expr.unOp k e).toText = k.opSym ++ " " ++ e.toText) ∧
    (∀ v : Int, (Expr.intConst v).toText = toString v) ∧
    (∀ n : String, (Expr.var n).toText = n) ∧
    (∀ (n : String) (e : Expr),
        (Expr.assign n e).toText = n ++ " = " ++ e.toText) ∧
    (Expr.binOp .plus (.intConst 5) (.intConst 4)).toDebugText =
      "Plus(IntConst(5), IntConst(4))" ∧
    (Expr.binOp .plus (.intConst 5) (.intConst 4)).toText = "(5 + 4)" :=
  ⟨fun _ _ _ => rfl, fun _ _ => rfl, fun _ => rfl, fun _ => rfl,
    fun _ _ => rfl, rfl, rfl⟩

/-- Claim C9 counterexample: a failing right-hand side does not leave the
environment unchanged — side effects performed inside the right-hand side
before the error persist, Python exceptions do not roll them back.  Here the
right side binds x to 1 and then fails on an unbound variable: the outer
`Assign("x", ...)` propagates the error, yet the environment has changed
from empty to one binding x — the target variable ends up bound. -/
theorem assign_error_env_counterexample :
    (Expr.binOp .plus (.assign "x" (.intConst 1)) (.var "u")).eval env_clear =
      (.error .attributeError, [("x", 1)]) ∧
    (Expr.assign "x"
        (Expr.binOp .plus (.assign "x" (.intConst 1)) (.var "u"))).eval env_clear =
      (.error .attributeError, [("x", 1)]) ∧
    ([("x", (1 : Int))] : Env) ≠ env_clear ∧
    envLookup "x" [("x", (1 : Int))] = some 1 :=
  ⟨rfl, rfl, by decide, rfl⟩

/-- Claim C9 (amended): the Assignment node itself performs no binding when
its right-hand side fails — the error and the environment produced by the
failed right-hand-side evaluation are passed through unchanged (so the
environment is unchanged exactly when the right-hand side's own evaluation
changed nothing). -/
theorem assign_error_no_binding :
    ∀ (x : String) (e : Expr) (env : Env) (err : Err) (env1 : Env),
      e.eval env = (.error err, env1) →
      (Expr.assign x e).eval env = (.error err, env1) := by
  intro x e env err env1 h
  simp [Expr.eval, h]

/-- Claim C9 witness: assigning from an unbound variable in an empty
environment fails and leaves the environment empty. -/
theorem assign_error_no_binding_witness :
    (Expr.assign "y" (Expr.var "u")).eval env_clear =
      (.error .attributeError, env_clear) :=
  assign_error_no_binding "y" (.var "u") env_clear .attributeError env_clear rfl

/-- Claim C10: binary operations evaluate left-to-right — the left operand
is fully evaluated, including its environment side effects, before the right
operand is evaluated in the resulting environment; in particular
`Plus(Assign(x, 1), Var x)` evaluates to 2 in an empty environment. -/
theorem binop_left_to_right :
    (∀ (k : BinKind) (e1 e2 : Expr) (env : Env) (v1 : Int) (env1 : Env)
        (v2 : Int) (env2 : Env),
        e1.eval env = (.ok v1, env1) → e2.eval env1 = (.ok v2, env2) →
        (Expr.binOp k e1 e2).eval env = (k.apply v1 v2, env2)) ∧
    (Expr.binOp .plus (.assign "x" (.intConst 1)) (.var "x")).eval env_clear =
      (.ok 2, [("x", 1)]) := by
  refine ⟨?_, rfl⟩
  intro k e1 e2 env v1 env1 v2 env2 h1 h2
  simp [Expr.eval, h1, h2]

/-- Claim C10 witness: a Minus whose left operand binds w, which the right
operand then reads back. -/
theorem binop_left_to_right_witness :
    (Expr.binOp .minus (.assign "w" (.intConst 3)) (.var "w")).eval env_clear =
      (BinKind.minus.apply 3 3, [("w", 3)]) :=
  binop_left_to_right.1 .minus (.assign "w" (.intConst 3)) (.var "w")
    env_clear 3 [("w", 3)] 3 [("w", 3)] rfl rfl

end Calculator
